import Mathlib

/-!
Shallow embedding of the menza-bulevar canteen-reservation system.

Times of day are minutes since midnight (`Nat`), dates are day numbers
(`Nat`), and an absolute instant combining a date and a time of day is
`date * 1440 + minutes` (1440 minutes per day), mirroring Python's
`datetime.combine`.  The persistence collaborator (DynamoDB tables) is
modelled as an explicit `Store` record threaded through every operation;
fallible operations return `Except`/`Option`.
-/

namespace Menza

structure Student where
  id : String
  name : String
  email : String
  isAdmin : Bool
  deriving Repr, DecidableEq

structure WorkingHour where
  meal : String
  from_time : Nat
  to_time : Nat
  deriving Repr, DecidableEq

structure Canteen where
  id : String
  name : String
  location : String
  capacity : Int
  workingHours : List WorkingHour
  deriving Repr, DecidableEq

structure Reservation where
  id : String
  studentId : String
  canteenId : String
  date : Nat
  time : Nat
  duration : Nat
  status : String
  deriving Repr, DecidableEq

structure Restriction where
  id : String
  canteenId : String
  startDate : Nat
  endDate : Nat
  workingHours : List WorkingHour
  deriving Repr, DecidableEq

structure CreateReservationDTO where
  studentId : String
  canteenId : String
  date : Nat
  time : Nat
  duration : Nat
  deriving Repr, DecidableEq

structure CreateRestrictionDTO where
  startDate : Nat
  endDate : Nat
  workingHours : List WorkingHour
  deriving Repr, DecidableEq

/-- The persistent state held by the DynamoDB tables, as one record.
`nextId` models the generation of fresh ids (`uuid.uuid4()` in the source). -/
structure Store where
  students : List Student
  canteens : List Canteen
  reservations : List Reservation
  restrictions : List Restriction
  nextId : Nat
  deriving Repr, DecidableEq

/-- `DynamoRepository.get_student_by_id`. -/
def get_student_by_id (s : Store) (studentId : String) : Option Student :=
  s.students.find? fun st => st.id == studentId

/-- `DynamoRepository.get_canteen_by_id`. -/
def get_canteen_by_id (s : Store) (canteenId : String) : Option Canteen :=
  s.canteens.find? fun c => c.id == canteenId

/-- `DynamoRepository.get_reservation_by_id`. -/
def get_reservation_by_id (s : Store) (reservationId : String) : Option Reservation :=
  s.reservations.find? fun r => r.id == reservationId

/-- `DynamoRepository.get_reservations_by_student_id` (query on `StudentIndex`). -/
def get_reservations_by_student_id (s : Store) (studentId : String) : List Reservation :=
  s.reservations.filter fun r => r.studentId == studentId

/-- `DynamoRepository.get_active_reservations_by_canteen_and_date`: query on
`CanteenIndex`, then keep items with status `"Active"` and the given date. -/
def get_active_reservations_by_canteen_and_date (s : Store) (canteenId : String) (d : Nat) :
    List Reservation :=
  (s.reservations.filter fun r => r.canteenId == canteenId).filter fun r =>
    r.status == "Active" && r.date == d

/-- Modelled from the spec: `listRestrictionsByCanteen(canteenId) -> [Restriction]`
(the repository method `get_restrictions_by_canteen_id` called by the service is
not under src/; only the external-interface contract in the spec describes it). -/
def get_restrictions_by_canteen_id (s : Store) (canteenId : String) : List Restriction :=
  s.restrictions.filter fun r => r.canteenId == canteenId

/-- `DynamoRepository.add_reservation`: assign a fresh id and put the item. -/
def add_reservation (s : Store) (data : Reservation) : Store × Reservation :=
  let new_id := "res-" ++ toString s.nextId
  let stored := { data with id := new_id }
  ({ s with reservations := s.reservations ++ [stored], nextId := s.nextId + 1 }, stored)

/-- `DynamoRepository.cancel_reservation`: look the reservation up, set its
status to `"Cancelled"` and put the item back under the same key. -/
def repo_cancel_reservation (s : Store) (reservationId : String) :
    Option (Store × Reservation) :=
  match s.reservations.find? (fun r => r.id == reservationId) with
  | none => none
  | some r0 =>
    let updated := { r0 with status := "Cancelled" }
    some ({ s with reservations :=
              s.reservations.map fun r => if r.id == reservationId then updated else r },
          updated)

/-- Absolute start instant of a stored reservation (`datetime.combine(res.date, res.time)`). -/
def res_start (r : Reservation) : Nat := r.date * 1440 + r.time

/-- Absolute end instant of a stored reservation (`res_start + timedelta(minutes=duration)`). -/
def res_end (r : Reservation) : Nat := res_start r + r.duration

/-- Half-open interval overlap test, as written in `_check_student_overlap` and
`_check_capacity`: `aStart < bEnd and bStart < aEnd`. -/
def overlaps (aS aE bS bE : Nat) : Bool :=
  decide (aS < bE) && decide (bS < aE)

/-- Full-containment test, as written in `_check_capacity`:
`windowStart <= slotStart and slotEnd <= windowEnd`. -/
def withinB (slotS slotE winS winE : Nat) : Bool :=
  decide (winS ≤ slotS) && decide (slotE ≤ winE)

inductive ResError where
  | pastDate
  | badDuration
  | badMinute
  | studentNotFound
  | canteenNotFound
  | conflict
  | noMealType
  | quotaExceeded
  | closed
  | capacityExceeded
  deriving Repr, DecidableEq

/-- `ReservationService._check_student_overlap`: true iff some Active
reservation of the student (any canteen, any date, absolute instants)
overlaps the requested interval. -/
def check_student_overlap (s : Store) (studentId : String) (reqS reqE : Nat) : Bool :=
  (get_reservations_by_student_id s studentId).any fun res =>
    res.status == "Active" && overlaps reqS reqE (res_start res) (res_end res)

/-- Python's `str.lower()` on the characters of a string (executable
character-by-character mapping; `Char.toLower` agrees with it on ASCII,
which is all the test data uses). -/
def lower_string (s : String) : String :=
  ⟨s.data.map Char.toLower⟩

/-- `ReservationService._get_meal_type`: label (lower-cased) of the first
working hour with `from <= t < to`, else `none`. -/
def get_meal_type (t : Nat) (working_hours : List WorkingHour) : Option String :=
  (working_hours.find? fun h => decide (h.from_time ≤ t) && decide (t < h.to_time)).map
    fun h => lower_string h.meal

/-- Count inside `ReservationService._check_meal_type_limit`: Active
reservations of the student on the date whose own canteen resolves and whose
classification against that canteen's nominal hours is truthy (non-empty)
and equal to `meal_type`. -/
def meal_type_count (s : Store) (studentId : String) (d : Nat) (meal_type : String) : Nat :=
  ((get_reservations_by_student_id s studentId).filter fun r =>
      r.status == "Active" && r.date == d).countP fun r =>
    match get_canteen_by_id s r.canteenId with
    | some c =>
      match get_meal_type r.time c.workingHours with
      | some m => !(m == "") && m == meal_type
      | none => false
    | none => false

/-- First restriction of the canteen whose inclusive date range covers `d`
(the `for r in restrictions: ... break` loop in `_check_capacity`). -/
def find_active_restriction (s : Store) (canteenId : String) (d : Nat) : Option Restriction :=
  (get_restrictions_by_canteen_id s canteenId).find? fun r =>
    decide (r.startDate ≤ d) && decide (d ≤ r.endDate)

/-- `working_hours_to_check` in `_check_capacity`: the covering restriction's
hours if one exists, else the canteen's nominal hours. -/
def effective_working_hours (s : Store) (canteen : Canteen) (d : Nat) : List WorkingHour :=
  match find_active_restriction s canteen.id d with
  | some r => r.workingHours
  | none => canteen.workingHours

/-- `is_open` in `_check_capacity`: the requested slot is fully contained in
some effective window (windows combined with the requested date). -/
def is_open (s : Store) (canteen : Canteen) (d t dur : Nat) : Bool :=
  (effective_working_hours s canteen d).any fun h =>
    withinB (d * 1440 + t) (d * 1440 + t + dur) (d * 1440 + h.from_time) (d * 1440 + h.to_time)

/-- `current_reservations_in_slot` in `_check_capacity`: Active reservations
of the canteen on the date whose interval overlaps the requested slot. -/
def reservations_in_slot (s : Store) (canteenId : String) (d slotS slotE : Nat) : Nat :=
  (get_active_reservations_by_canteen_and_date s canteenId d).countP fun res =>
    overlaps slotS slotE (res_start res) (res_end res)

/-- `ReservationService.create_reservation`, with `_validate_reservation_payload`,
`_check_student_overlap`, `_get_meal_type`, `_check_meal_type_limit` and
`_check_capacity` inlined in source order.  `today` stands for `date.today()`.
A raised `ValueError` is an `Except.error`; on success the new reservation is
persisted with status `"Active"` by the single `add_reservation` write. -/
def create_reservation (today : Nat) (s : Store) (p : CreateReservationDTO) :
    Except ResError (Store × Reservation) :=
  if p.date < today then .error .pastDate
  else if ¬ (p.duration = 30 ∨ p.duration = 60) then .error .badDuration
  else if ¬ (p.time % 60 = 0 ∨ p.time % 60 = 30) then .error .badMinute
  else match get_student_by_id s p.studentId with
  | none => .error .studentNotFound
  | some _ =>
    match get_canteen_by_id s p.canteenId with
    | none => .error .canteenNotFound
    | some canteen =>
      if check_student_overlap s p.studentId (p.date * 1440 + p.time)
          (p.date * 1440 + p.time + p.duration) = true then .error .conflict
      else match get_meal_type p.time canteen.workingHours with
      | none => .error .noMealType
      | some meal_type =>
        if meal_type = "" then .error .noMealType
        else if 2 ≤ meal_type_count s p.studentId p.date meal_type then .error .quotaExceeded
        else if ¬ is_open s canteen p.date p.time p.duration = true then .error .closed
        else if canteen.capacity -
            (reservations_in_slot s canteen.id p.date (p.date * 1440 + p.time)
              (p.date * 1440 + p.time + p.duration) : Int) ≤ 0 then .error .capacityExceeded
        else
          .ok (add_reservation s
            { id := "", studentId := p.studentId, canteenId := p.canteenId,
              date := p.date, time := p.time, duration := p.duration, status := "Active" })

/-- Admissibility of a stored reservation against a list of windows, the
containment test the cascade reuses (`within` on absolute instants). -/
def slot_admissible (r : Reservation) (working_hours : List WorkingHour) : Bool :=
  working_hours.any fun h =>
    withinB (res_start r) (res_end r) (r.date * 1440 + h.from_time) (r.date * 1440 + h.to_time)

inductive RestrError where
  | forbidden
  | invalidInput
  | conflict
  | notFound
  deriving Repr, DecidableEq

/-- Modelled from the spec: `CanteenService.create_restriction` (the Restriction
Engine) is not under src/ — only its tests, DTO and domain model are.  Follows
the spec's numbered contract: (1) actor must be an admin student, (2) reject if
`endDate < startDate`, (3) reject if a supplied WorkingHour is not fully
contained (`within`) in some nominal WorkingHour of the canteen (generic, not
matched by meal label), (4) reject if the inclusive date range intersects an
existing restriction of the same canteen, (5) persist with a fresh id,
(6) cancel every Active reservation of the canteen whose date falls in
`[startDate, endDate]` and whose slot is not `within` any of the restriction's
windows (notification is fire-and-forget and not modelled), (7) return it. -/
def create_restriction (s : Store) (actorId canteenId : String) (dto : CreateRestrictionDTO) :
    Except RestrError (Store × Restriction) :=
  match get_student_by_id s actorId with
  | none => .error .forbidden
  | some actor =>
    if ¬ actor.isAdmin = true then .error .forbidden
    else match get_canteen_by_id s canteenId with
    | none => .error .notFound
    | some canteen =>
      if dto.endDate < dto.startDate then .error .invalidInput
      else if ¬ (dto.workingHours.all fun h =>
          canteen.workingHours.any fun n =>
            withinB h.from_time h.to_time n.from_time n.to_time) = true then
        .error .invalidInput
      else if (get_restrictions_by_canteen_id s canteenId).any (fun r =>
          decide (r.startDate ≤ dto.endDate) && decide (dto.startDate ≤ r.endDate)) = true then
        .error .conflict
      else
        let new_id := "restr-" ++ toString s.nextId
        let restr : Restriction :=
          { id := new_id, canteenId := canteenId, startDate := dto.startDate,
            endDate := dto.endDate, workingHours := dto.workingHours }
        .ok ({ s with
                restrictions := s.restrictions ++ [restr],
                reservations := s.reservations.map fun r =>
                  if r.canteenId == canteenId && r.status == "Active" &&
                      decide (dto.startDate ≤ r.date) && decide (r.date ≤ dto.endDate) &&
                      ! slot_admissible r dto.workingHours
                  then { r with status := "Cancelled" } else r,
                nextId := s.nextId + 1 },
             restr)

/-- Modelled from the spec: deleting a restriction (exercised by
`test_delete_restriction_does_not_uncancel`, which removes the restriction
record from the store directly) removes only the restriction record;
reservations are not touched. -/
def delete_restriction (s : Store) (restrictionId : String) : Store :=
  { s with restrictions := s.restrictions.filter fun r => ¬ r.id == restrictionId }

inductive CancelError where
  | notFound
  | forbidden
  | alreadyCancelled
  deriving Repr, DecidableEq

/-- `ReservationService.cancel_reservation`: not-found, then authorization,
then already-cancelled, then delegate to the repository write. -/
def cancel_reservation (s : Store) (reservationId studentId : String) :
    Except CancelError (Store × Reservation) :=
  match get_reservation_by_id s reservationId with
  | none => .error .notFound
  | some r =>
    if r.studentId ≠ studentId then .error .forbidden
    else if r.status = "Cancelled" then .error .alreadyCancelled
    else match repo_cancel_reservation s reservationId with
      | none => .error .notFound
      | some (s', updated) => .ok (s', updated)

/-! ### Helper lemmas (shared) -/

/-- Successful `create_reservation` changes the store exactly by the final
`add_reservation` write: one Active reservation appended, nothing else touched. -/
theorem create_reservation_ok_shape (today : Nat) (s : Store) (p : CreateReservationDTO)
    (s' : Store) (res : Reservation) (h : create_reservation today s p = .ok (s', res)) :
    s'.students = s.students ∧ s'.canteens = s.canteens ∧
    s'.restrictions = s.restrictions ∧ s'.nextId = s.nextId + 1 ∧
    s'.reservations = s.reservations ++ [res] ∧ res.status = "Active" := by
  unfold create_reservation at h
  repeat' split at h
  any_goals exact Except.noConfusion h
  injection h with h2
  simp only [add_reservation] at h2
  injection h2 with hs hr
  subst hs
  subst hr
  exact ⟨rfl, rfl, rfl, rfl, rfl, rfl⟩

/-- Replacing, in a list, every element satisfying `p` by a fixed element `u`
that itself satisfies `p` makes `find? p` return `u`, provided it returned
something before. -/
theorem find?_map_update {α : Type} (p : α → Bool) (u : α) (hu : p u = true) :
    ∀ (l : List α) (r : α), l.find? p = some r →
      (l.map fun x => if p x then u else x).find? p = some u := by
  intro l
  induction l with
  | nil => intro r h; simp at h
  | cons a t ih =>
    intro r h
    rcases hpa : p a with _ | _
    · rw [List.find?_cons, hpa] at h
      simp only [cond_false] at h
      have ht := ih r h
      simp [List.find?_cons, hpa, ht]
    · simp [List.find?_cons, hpa, hu]

/-! ### C7 -/

/-- C7: the half-open overlap test used by the validator
(`aStart < bEnd and bStart < aEnd`) is symmetric for all interval pairs, and
`overlaps(a,a)` is true for any self-pair of a reservation slot (every slot
has positive duration, so its interval is nonempty). -/
theorem overlaps_symm_and_self :
    (∀ aS aE bS bE : Nat, overlaps aS aE bS bE = overlaps bS bE aS aE) ∧
    (∀ aS aE : Nat, aS < aE → overlaps aS aE aS aE = true) := by
  constructor
  · intro aS aE bS bE
    unfold overlaps
    exact Bool.and_comm _ _
  · intro aS aE h
    simp [overlaps, h]

/-- Witness for C7 at the concrete slots 13:00-13:30 and 13:30-14:00. -/
theorem overlaps_symm_and_self_witness :
    overlaps 780 810 810 840 = overlaps 810 840 780 810 ∧
    (0 : Nat) < 30 ∧ overlaps 780 810 780 810 = true :=
  ⟨overlaps_symm_and_self.1 780 810 810 840, by decide,
    overlaps_symm_and_self.2 780 810 (by decide)⟩

/-! ### Concrete fixtures for witnesses -/

def sampleHours : List WorkingHour :=
  [{ meal := "breakfast", from_time := 480, to_time := 600 },
   { meal := "lunch", from_time := 720, to_time := 900 }]

def sampleCanteen : Canteen :=
  { id := "c1", name := "Menza Bulevar", location := "NS", capacity := 20,
    workingHours := sampleHours }

def sampleStudent : Student :=
  { id := "s1", name := "Ana", email := "ana@example.com", isAdmin := false }

def sampleAdmin : Student :=
  { id := "adm", name := "Admin", email := "admin@example.com", isAdmin := true }

def sampleStore : Store :=
  { students := [sampleStudent, sampleAdmin], canteens := [sampleCanteen],
    reservations := [], restrictions := [], nextId := 0 }

def samplePayload : CreateReservationDTO :=
  { studentId := "s1", canteenId := "c1", date := 101, time := 510, duration := 30 }

def sampleStored : Reservation :=
  { id := "res-0", studentId := "s1", canteenId := "c1", date := 101, time := 510,
    duration := 30, status := "Active" }

def sampleStoreAfter : Store :=
  { sampleStore with reservations := [sampleStored], nextId := 1 }

/-! ### C8 -/

/-- C8: a failing `create_reservation` call yields no successor store at all —
the validation raises before the single persistence call — and on success the
single write happens after the last check: the store changes exactly by
appending the one new Active reservation, with students, canteens and
restrictions untouched. -/
theorem create_reservation_no_partial_persistence (today : Nat) (s : Store)
    (p : CreateReservationDTO) :
    ∀ s' res, create_reservation today s p = .ok (s', res) →
      s'.students = s.students ∧ s'.canteens = s.canteens ∧
      s'.restrictions = s.restrictions ∧
      s'.reservations = s.reservations ++ [res] ∧ res.status = "Active" :=
  fun s' res h =>
    have sh := create_reservation_ok_shape today s p s' res h
    ⟨sh.1, sh.2.1, sh.2.2.1, sh.2.2.2.2.1, sh.2.2.2.2.2⟩

/-- Witness for C8: a concrete successful creation appends exactly one Active
reservation to an empty table. -/
theorem create_reservation_no_partial_persistence_witness :
    sampleStoreAfter.students = sampleStore.students ∧
    sampleStoreAfter.canteens = sampleStore.canteens ∧
    sampleStoreAfter.restrictions = sampleStore.restrictions ∧
    sampleStoreAfter.reservations = sampleStore.reservations ++ [sampleStored] ∧
    sampleStored.status = "Active" :=
  create_reservation_no_partial_persistence 100 sampleStore samplePayload
    sampleStoreAfter sampleStored rfl

/-! ### C5 -/

/-- C5: `cancel_reservation` applies its checks in exactly this order:
`NotFound` when the id does not resolve; else `Forbidden` when the reservation
belongs to another student; else `AlreadyCancelled` when the status is already
`"Cancelled"`; otherwise it sets the status to `"Cancelled"`, persists it, and
returns the updated reservation. -/
theorem cancel_reservation_contract (s : Store) (reservationId studentId : String) :
    (get_reservation_by_id s reservationId = none →
      cancel_reservation s reservationId studentId = .error .notFound) ∧
    (∀ r, get_reservation_by_id s reservationId = some r → r.studentId ≠ studentId →
      cancel_reservation s reservationId studentId = .error .forbidden) ∧
    (∀ r, get_reservation_by_id s reservationId = some r → r.studentId = studentId →
      r.status = "Cancelled" →
      cancel_reservation s reservationId studentId = .error .alreadyCancelled) ∧
    (∀ r, get_reservation_by_id s reservationId = some r → r.studentId = studentId →
      r.status ≠ "Cancelled" →
      ∃ s', cancel_reservation s reservationId studentId =
          .ok (s', { r with status := "Cancelled" }) ∧
        get_reservation_by_id s' reservationId = some { r with status := "Cancelled" }) := by
  refine ⟨?_, ?_, ?_, ?_⟩
  · intro h
    simp [cancel_reservation, h]
  · intro r hr hne
    simp [cancel_reservation, hr, hne]
  · intro r hr he hc
    simp [cancel_reservation, hr, he, hc]
  · intro r hr he hc
    have hfind : s.reservations.find? (fun x => x.id == reservationId) = some r := hr
    have hpr := List.find?_some hfind
    refine ⟨{ s with reservations := s.reservations.map fun x =>
        if x.id == reservationId then { r with status := "Cancelled" } else x }, ?_, ?_⟩
    · simp [cancel_reservation, hr, he, hc, repo_cancel_reservation, hfind]
    · exact find?_map_update (fun x : Reservation => x.id == reservationId)
        { r with status := "Cancelled" } hpr s.reservations r hfind

def cancelledSample : Reservation :=
  { id := "r2", studentId := "s1", canteenId := "c1", date := 101, time := 510,
    duration := 30, status := "Cancelled" }

def cancelStore : Store :=
  { students := [sampleStudent], canteens := [sampleCanteen],
    reservations := [cancelledSample], restrictions := [], nextId := 5 }

/-- Witness for C5: cancelling an already-cancelled reservation of the same
student fails with `AlreadyCancelled`. -/
theorem cancel_reservation_contract_witness :
    cancel_reservation cancelStore "r2" "s1" = .error .alreadyCancelled :=
  (cancel_reservation_contract cancelStore "r2" "s1").2.2.1 cancelledSample rfl rfl rfl

/-! ### C10 -/

/-- C10: the store's cancel operation changes only the status field (to
`"Cancelled"`): id, studentId, canteenId, date, time and duration of the
persisted and returned reservation keep their values.  Reservation ids are
assumed pairwise distinct, as `id` is the DynamoDB table key. -/
theorem repo_cancel_changes_only_status (s : Store) (reservationId : String)
    (hnd : (s.reservations.map Reservation.id).Nodup)
    (s' : Store) (ret : Reservation)
    (h : repo_cancel_reservation s reservationId = some (s', ret)) :
    (∃ r0, get_reservation_by_id s reservationId = some r0 ∧
      ret.id = r0.id ∧ ret.studentId = r0.studentId ∧ ret.canteenId = r0.canteenId ∧
      ret.date = r0.date ∧ ret.time = r0.time ∧ ret.duration = r0.duration ∧
      ret.status = "Cancelled") ∧
    s'.students = s.students ∧ s'.canteens = s.canteens ∧
    s'.restrictions = s.restrictions ∧ s'.nextId = s.nextId ∧
    s'.reservations.length = s.reservations.length ∧
    ∀ i (hi : i < s.reservations.length),
      ∃ r', s'.reservations[i]? = some r' ∧
        r'.id = (s.reservations[i]).id ∧ r'.studentId = (s.reservations[i]).studentId ∧
        r'.canteenId = (s.reservations[i]).canteenId ∧ r'.date = (s.reservations[i]).date ∧
        r'.time = (s.reservations[i]).time ∧ r'.duration = (s.reservations[i]).duration := by
  unfold repo_cancel_reservation at h
  rcases hfind : s.reservations.find? (fun r => r.id == reservationId) with _ | r0
  · rw [hfind] at h
    exact absurd h (by simp)
  · rw [hfind] at h
    injection h with h2
    injection h2 with hs hret
    subst hs
    subst hret
    have hbeq := List.find?_some hfind
    have hid0 : r0.id = reservationId := by simpa using hbeq
    have hmem0 : r0 ∈ s.reservations := List.mem_of_find?_eq_some hfind
    refine ⟨⟨r0, hfind, rfl, rfl, rfl, rfl, rfl, rfl, rfl⟩, rfl, rfl, rfl, rfl, by simp, ?_⟩
    intro i hi
    have hmap : (s.reservations.map fun r =>
        if r.id == reservationId then { r0 with status := "Cancelled" } else r)[i]? =
        some (if (s.reservations[i]).id == reservationId
          then { r0 with status := "Cancelled" } else s.reservations[i]) := by
      rw [List.getElem?_map, List.getElem?_eq_getElem hi]
      rfl
    by_cases hcase : ((s.reservations[i]).id == reservationId) = true
    · have heq : s.reservations[i] = r0 := by
        refine List.inj_on_of_nodup_map hnd (List.getElem_mem hi) hmem0 ?_
        rw [hid0]
        exact beq_iff_eq.mp hcase
      refine ⟨{ r0 with status := "Cancelled" }, ?_, ?_, ?_, ?_, ?_, ?_, ?_⟩
      · rw [hmap, if_pos hcase]
      all_goals rw [heq]
    · refine ⟨s.reservations[i], ?_, rfl, rfl, rfl, rfl, rfl, rfl⟩
      rw [hmap, if_neg hcase]

/-- Witness for C10 at a concrete one-row table. -/
theorem repo_cancel_changes_only_status_witness :
    (∃ r0, get_reservation_by_id cancelStore "r2" = some r0 ∧
      cancelledSample.id = r0.id ∧ cancelledSample.studentId = r0.studentId ∧
      cancelledSample.canteenId = r0.canteenId ∧ cancelledSample.date = r0.date ∧
      cancelledSample.time = r0.time ∧ cancelledSample.duration = r0.duration ∧
      cancelledSample.status = "Cancelled") ∧
    cancelStore.students = cancelStore.students ∧
    cancelStore.canteens = cancelStore.canteens ∧
    cancelStore.restrictions = cancelStore.restrictions ∧
    cancelStore.nextId = cancelStore.nextId ∧
    cancelStore.reservations.length = cancelStore.reservations.length ∧
    ∀ i (hi : i < cancelStore.reservations.length),
      ∃ r', cancelStore.reservations[i]? = some r' ∧
        r'.id = (cancelStore.reservations[i]).id ∧
        r'.studentId = (cancelStore.reservations[i]).studentId ∧
        r'.canteenId = (cancelStore.reservations[i]).canteenId ∧
        r'.date = (cancelStore.reservations[i]).date ∧
        r'.time = (cancelStore.reservations[i]).time ∧
        r'.duration = (cancelStore.reservations[i]).duration :=
  repo_cancel_changes_only_status cancelStore "r2" (by decide) cancelStore cancelledSample rfl

/-! ### Restriction-engine shape helper -/

/-- Successful `create_restriction` appends the new restriction and rewrites
the reservation table exactly by the cascade's conditional cancellation. -/
theorem create_restriction_ok_shape (s : Store) (actorId canteenId : String)
    (dto : CreateRestrictionDTO) (s' : Store) (restr : Restriction)
    (h : create_restriction s actorId canteenId dto = .ok (s', restr)) :
    restr = { id := "restr-" ++ toString s.nextId, canteenId := canteenId,
              startDate := dto.startDate, endDate := dto.endDate,
              workingHours := dto.workingHours } ∧
    s' = { s with
           restrictions := s.restrictions ++ [restr]
           reservations := s.reservations.map fun r =>
             if r.canteenId == canteenId && r.status == "Active" &&
                 decide (dto.startDate ≤ r.date) && decide (r.date ≤ dto.endDate) &&
                 ! slot_admissible r dto.workingHours
             then { r with status := "Cancelled" } else r
           nextId := s.nextId + 1 } := by
  unfold create_restriction at h
  repeat' split at h
  any_goals exact Except.noConfusion h
  injection h with h2
  injection h2 with hs hr
  subst hs
  subst hr
  exact ⟨rfl, rfl⟩

/-! ### C6 -/

/-- C6: no exposed operation resurrects a cancelled reservation: after
`create_reservation`, `cancel_reservation`, `create_restriction` (with its
cascade) or restriction deletion, every reservation that was `"Cancelled"`
still exists under its id with status `"Cancelled"`; in particular a
reservation cancelled by a cascade stays `"Cancelled"` after the restriction
is deleted. -/
theorem no_resurrection :
    (∀ today s p s' res, create_reservation today s p = Except.ok (s', res) →
      ∀ r ∈ s.reservations, r.status = "Cancelled" →
        ∃ r' ∈ s'.reservations, r'.id = r.id ∧ r'.status = "Cancelled") ∧
    (∀ s rid sid s' res, cancel_reservation s rid sid = Except.ok (s', res) →
      ∀ r ∈ s.reservations, r.status = "Cancelled" →
        ∃ r' ∈ s'.reservations, r'.id = r.id ∧ r'.status = "Cancelled") ∧
    (∀ s aid cid dto s' restr, create_restriction s aid cid dto = Except.ok (s', restr) →
      ∀ r ∈ s.reservations, r.status = "Cancelled" →
        ∃ r' ∈ s'.reservations, r'.id = r.id ∧ r'.status = "Cancelled") ∧
    (∀ s rid, ∀ r ∈ s.reservations, r.status = "Cancelled" →
      r ∈ (delete_restriction s rid).reservations) ∧
    (∀ s aid cid dto s' restr, create_restriction s aid cid dto = Except.ok (s', restr) →
      ∀ r ∈ s'.reservations, r.status = "Cancelled" →
        r ∈ (delete_restriction s' restr.id).reservations ∧ r.status = "Cancelled") := by
  refine ⟨?_, ?_, ?_, ?_, ?_⟩
  · intro today s p s' res h r hr hc
    obtain ⟨-, -, -, -, hres, -⟩ := create_reservation_ok_shape today s p s' res h
    exact ⟨r, by rw [hres]; exact List.mem_append_left _ hr, rfl, hc⟩
  · intro s rid sid s' res h r hr hc
    unfold cancel_reservation at h
    rcases hget : get_reservation_by_id s rid with _ | r1
    · rw [hget] at h
      exact absurd h (by simp)
    · rw [hget] at h
      simp only [] at h
      by_cases h1 : r1.studentId ≠ sid
      · rw [if_pos h1] at h
        exact absurd h (by simp)
      · rw [if_neg h1] at h
        by_cases h2 : r1.status = "Cancelled"
        · rw [if_pos h2] at h
          exact absurd h (by simp)
        · rw [if_neg h2] at h
          unfold repo_cancel_reservation at h
          rcases hfind : s.reservations.find? (fun x => x.id == rid) with _ | r0
          · rw [hfind] at h
            exact absurd h (by simp)
          · rw [hfind] at h
            injection h with h3
            injection h3 with hs hres
            subst hs
            have hid0 : r0.id = rid := by simpa using List.find?_some hfind
            refine ⟨if r.id == rid then { r0 with status := "Cancelled" } else r,
              List.mem_map_of_mem _ hr, ?_, ?_⟩
            · by_cases hcase : (r.id == rid) = true
              · rw [if_pos hcase]
                show r0.id = r.id
                rw [hid0]
                exact (beq_iff_eq.mp hcase).symm
              · rw [if_neg hcase]
            · by_cases hcase : (r.id == rid) = true
              · rw [if_pos hcase]
              · rw [if_neg hcase]
                exact hc
  · intro s aid cid dto s' restr h r hr hc
    obtain ⟨-, hs⟩ := create_restriction_ok_shape s aid cid dto s' restr h
    have hact : (r.status == "Active") = false := by rw [hc]; rfl
    have hfix : (if r.canteenId == cid && r.status == "Active" &&
        decide (dto.startDate ≤ r.date) && decide (r.date ≤ dto.endDate) &&
        ! slot_admissible r dto.workingHours
        then { r with status := "Cancelled" } else r) = r := by
      rw [hact]
      simp
    have hmem := List.mem_map_of_mem (fun x : Reservation =>
      if x.canteenId == cid && x.status == "Active" && decide (dto.startDate ≤ x.date) &&
          decide (x.date ≤ dto.endDate) && ! slot_admissible x dto.workingHours
      then { x with status := "Cancelled" } else x) hr
    simp only [] at hmem
    rw [hfix] at hmem
    refine ⟨r, ?_, rfl, hc⟩
    rw [hs]
    exact hmem
  · intro s rid r hr _
    exact hr
  · intro s aid cid dto s' restr _ r hr hc
    exact ⟨hr, hc⟩

def cascadeDto : CreateRestrictionDTO :=
  { startDate := 101, endDate := 101, workingHours := [] }

def restrStore : Store :=
  { students := [sampleAdmin], canteens := [sampleCanteen],
    reservations := [cancelledSample], restrictions := [], nextId := 0 }

def restrStoreAfter : Store :=
  { restrStore with
    restrictions := [{ id := "restr-0", canteenId := "c1", startDate := 101,
                       endDate := 101, workingHours := [] }],
    nextId := 1 }

/-- Witness for C6: a closed-all-day restriction leaves an already-cancelled
reservation cancelled, and so does deleting that restriction afterwards. -/
theorem no_resurrection_witness :
    cancelledSample ∈ restrStoreAfter.reservations ∧
    cancelledSample.status = "Cancelled" ∧
    cancelledSample ∈ (delete_restriction restrStoreAfter "restr-0").reservations := by
  have h3 := no_resurrection.2.2.1 restrStore "adm" "c1" cascadeDto restrStoreAfter
    { id := "restr-0", canteenId := "c1", startDate := 101, endDate := 101, workingHours := [] }
    rfl cancelledSample (by decide) rfl
  obtain ⟨r', hmem, hid, hst⟩ := h3
  have hr' : r' = cancelledSample := by
    have : r' ∈ [cancelledSample] := hmem
    simpa using this
  subst hr'
  exact ⟨hmem, rfl, no_resurrection.2.2.2.1 restrStoreAfter "restr-0" cancelledSample hmem rfl⟩

/-! ### Reduction lemmas for `create_reservation` -/

/-- The student-overlap check succeeds exactly on a strict half-open overlap
with some Active reservation of the student, on any canteen and date. -/
theorem check_student_overlap_iff (s : Store) (sid : String) (reqS reqE : Nat) :
    check_student_overlap s sid reqS reqE = true ↔
      ∃ res ∈ s.reservations, res.studentId = sid ∧ res.status = "Active" ∧
        reqS < res_end res ∧ res_start res < reqE := by
  simp only [check_student_overlap, get_reservations_by_student_id, overlaps,
    List.any_eq_true, List.mem_filter, Bool.and_eq_true, beq_iff_eq, decide_eq_true_eq]
  tauto

/-- Once the payload validation passes (date, duration, minute alignment,
student and canteen lookups), `create_reservation` reduces to the chain of
business checks. -/
theorem create_reservation_after_validation (today : Nat) (s : Store)
    (p : CreateReservationDTO) (st : Student) (canteen : Canteen)
    (h1 : ¬ p.date < today) (h2 : p.duration = 30 ∨ p.duration = 60)
    (h3 : p.time % 60 = 0 ∨ p.time % 60 = 30)
    (hst : get_student_by_id s p.studentId = some st)
    (hcan : get_canteen_by_id s p.canteenId = some canteen) :
    create_reservation today s p =
      (if check_student_overlap s p.studentId (p.date * 1440 + p.time)
          (p.date * 1440 + p.time + p.duration) = true then .error .conflict
       else match get_meal_type p.time canteen.workingHours with
       | none => .error .noMealType
       | some meal_type =>
         if meal_type = "" then .error .noMealType
         else if 2 ≤ meal_type_count s p.studentId p.date meal_type then
           .error .quotaExceeded
         else if ¬ is_open s canteen p.date p.time p.duration = true then .error .closed
         else if canteen.capacity -
             (reservations_in_slot s canteen.id p.date (p.date * 1440 + p.time)
               (p.date * 1440 + p.time + p.duration) : Int) ≤ 0 then
           .error .capacityExceeded
         else .ok (add_reservation s
           { id := "", studentId := p.studentId, canteenId := p.canteenId,
             date := p.date, time := p.time, duration := p.duration,
             status := "Active" })) := by
  unfold create_reservation
  rw [if_neg h1, if_neg (not_not_intro h2), if_neg (not_not_intro h3), hst, hcan]

/-! ### C3 -/

/-- C3: a request that passed payload validation is rejected with `Conflict`
iff its absolute half-open interval (date and time combined, strict
comparisons) overlaps some other Active reservation of the same student on
any canteen; touching intervals do not conflict. -/
theorem create_reservation_conflict_iff (today : Nat) (s : Store)
    (p : CreateReservationDTO) (st : Student) (canteen : Canteen)
    (h1 : ¬ p.date < today) (h2 : p.duration = 30 ∨ p.duration = 60)
    (h3 : p.time % 60 = 0 ∨ p.time % 60 = 30)
    (hst : get_student_by_id s p.studentId = some st)
    (hcan : get_canteen_by_id s p.canteenId = some canteen) :
    (create_reservation today s p = .error .conflict ↔
      ∃ res ∈ s.reservations, res.studentId = p.studentId ∧ res.status = "Active" ∧
        p.date * 1440 + p.time < res_end res ∧
        res_start res < p.date * 1440 + p.time + p.duration) := by
  rw [create_reservation_after_validation today s p st canteen h1 h2 h3 hst hcan,
    ← check_student_overlap_iff]
  by_cases hb : check_student_overlap s p.studentId (p.date * 1440 + p.time)
      (p.date * 1440 + p.time + p.duration) = true
  · rw [if_pos hb]
    exact iff_of_true rfl hb
  · rw [if_neg hb]
    apply iff_of_false
    · intro hcontra
      rcases hmt : get_meal_type p.time canteen.workingHours with _ | mt
      · rw [hmt] at hcontra
        exact absurd hcontra (by simp)
      · rw [hmt] at hcontra
        simp only [] at hcontra
        repeat' split at hcontra
        all_goals exact absurd hcontra (by simp)
    · exact hb

def touchRes : Reservation :=
  { id := "r1", studentId := "s1", canteenId := "c1", date := 101, time := 780,
    duration := 30, status := "Active" }

def touchStore : Store :=
  { students := [sampleStudent], canteens := [sampleCanteen],
    reservations := [touchRes], restrictions := [], nextId := 1 }

def touchPayload : CreateReservationDTO :=
  { studentId := "s1", canteenId := "c1", date := 101, time := 810, duration := 30 }

def touchStored : Reservation :=
  { id := "res-1", studentId := "s1", canteenId := "c1", date := 101, time := 810,
    duration := 30, status := "Active" }

def touchStoreAfter : Store :=
  { touchStore with reservations := [touchRes, touchStored], nextId := 2 }

/-- Witness for C3: a reservation starting exactly when the student's
existing one ends (13:30) does not conflict, and the request in fact
succeeds. -/
theorem create_reservation_conflict_iff_witness :
    (create_reservation 100 touchStore touchPayload = .error .conflict ↔
      ∃ res ∈ touchStore.reservations, res.studentId = "s1" ∧ res.status = "Active" ∧
        101 * 1440 + 810 < res_end res ∧ res_start res < 101 * 1440 + 810 + 30) ∧
    create_reservation 100 touchStore touchPayload = .ok (touchStoreAfter, touchStored) :=
  ⟨create_reservation_conflict_iff 100 touchStore touchPayload sampleStudent sampleCanteen
      (by decide) (Or.inl rfl) (Or.inr rfl) rfl rfl,
    rfl⟩

/-! ### C1 -/

/-- The slot-occupancy count of `_check_capacity` counts exactly the Active
reservations of the canteen on the date whose interval overlaps the slot. -/
theorem reservations_in_slot_characterization (s : Store) (cid : String)
    (d slotS slotE : Nat) :
    reservations_in_slot s cid d slotS slotE =
      s.reservations.countP fun r =>
        r.canteenId == cid && r.status == "Active" && r.date == d &&
        overlaps slotS slotE (res_start r) (res_end r) := by
  unfold reservations_in_slot get_active_reservations_by_canteen_and_date
  rw [List.countP_filter, List.countP_filter]
  apply List.countP_congr
  intro r _
  simp only [Bool.and_eq_true]
  tauto

/-- C1: once every earlier check has passed, the request is rejected with
`CapacityExceeded` iff the number of other Active reservations at the same
canteen and date whose half-open interval overlaps the requested interval is
at least `canteen.capacity`; below capacity the request succeeds. -/
theorem create_reservation_capacity_iff (today : Nat) (s : Store)
    (p : CreateReservationDTO) (st : Student) (canteen : Canteen) (mt : String)
    (h1 : ¬ p.date < today) (h2 : p.duration = 30 ∨ p.duration = 60)
    (h3 : p.time % 60 = 0 ∨ p.time % 60 = 30)
    (hst : get_student_by_id s p.studentId = some st)
    (hcan : get_canteen_by_id s p.canteenId = some canteen)
    (h6 : check_student_overlap s p.studentId (p.date * 1440 + p.time)
      (p.date * 1440 + p.time + p.duration) = false)
    (h7 : get_meal_type p.time canteen.workingHours = some mt)
    (h8 : mt ≠ "")
    (h9 : meal_type_count s p.studentId p.date mt < 2)
    (h10 : is_open s canteen p.date p.time p.duration = true) :
    (reservations_in_slot s canteen.id p.date (p.date * 1440 + p.time)
        (p.date * 1440 + p.time + p.duration) =
      s.reservations.countP fun r =>
        r.canteenId == canteen.id && r.status == "Active" && r.date == p.date &&
        overlaps (p.date * 1440 + p.time) (p.date * 1440 + p.time + p.duration)
          (res_start r) (res_end r)) ∧
    (create_reservation today s p = .error .capacityExceeded ↔
      canteen.capacity ≤ (reservations_in_slot s canteen.id p.date
        (p.date * 1440 + p.time) (p.date * 1440 + p.time + p.duration) : Int)) ∧
    ((∃ out, create_reservation today s p = Except.ok out) ↔
      ((reservations_in_slot s canteen.id p.date (p.date * 1440 + p.time)
        (p.date * 1440 + p.time + p.duration) : Int) < canteen.capacity)) := by
  refine ⟨reservations_in_slot_characterization s canteen.id p.date
    (p.date * 1440 + p.time) (p.date * 1440 + p.time + p.duration), ?_, ?_⟩
  · rw [create_reservation_after_validation today s p st canteen h1 h2 h3 hst hcan,
      if_neg (by simp [h6]), h7]
    simp only []
    rw [if_neg h8, if_neg (not_le.mpr h9), if_neg (not_not_intro h10)]
    by_cases hcap : canteen.capacity - (reservations_in_slot s canteen.id p.date
        (p.date * 1440 + p.time) (p.date * 1440 + p.time + p.duration) : Int) ≤ 0
    · rw [if_pos hcap]
      exact iff_of_true rfl (by omega)
    · rw [if_neg hcap]
      apply iff_of_false
      · intro hcontra
        exact absurd hcontra (by simp)
      · omega
  · rw [create_reservation_after_validation today s p st canteen h1 h2 h3 hst hcan,
      if_neg (by simp [h6]), h7]
    simp only []
    rw [if_neg h8, if_neg (not_le.mpr h9), if_neg (not_not_intro h10)]
    by_cases hcap : canteen.capacity - (reservations_in_slot s canteen.id p.date
        (p.date * 1440 + p.time) (p.date * 1440 + p.time + p.duration) : Int) ≤ 0
    · rw [if_pos hcap]
      apply iff_of_false
      · rintro ⟨out, hout⟩
        exact absurd hout (by simp)
      · omega
    · rw [if_neg hcap]
      apply iff_of_true
      · exact ⟨add_reservation s
          { id := "", studentId := p.studentId, canteenId := p.canteenId,
            date := p.date, time := p.time, duration := p.duration,
            status := "Active" }, rfl⟩
      · omega

def sampleStudent2 : Student :=
  { id := "s2", name := "Iva", email := "iva@example.com", isAdmin := false }

def capCanteen : Canteen :=
  { id := "c2", name := "Mala menza", location := "NS", capacity := 1,
    workingHours := sampleHours }

def capRes : Reservation :=
  { id := "rA", studentId := "s2", canteenId := "c2", date := 101, time := 510,
    duration := 30, status := "Active" }

def capStore : Store :=
  { students := [sampleStudent, sampleStudent2], canteens := [capCanteen],
    reservations := [capRes], restrictions := [], nextId := 9 }

def capPayload : CreateReservationDTO :=
  { studentId := "s1", canteenId := "c2", date := 101, time := 510, duration := 30 }

/-- Witness for C1: with capacity 1 and one overlapping Active reservation,
the next overlapping request is rejected with `CapacityExceeded`. -/
theorem create_reservation_capacity_iff_witness :
    (reservations_in_slot capStore "c2" 101 (101 * 1440 + 510) (101 * 1440 + 510 + 30) =
      capStore.reservations.countP fun r =>
        r.canteenId == "c2" && r.status == "Active" && r.date == 101 &&
        overlaps (101 * 1440 + 510) (101 * 1440 + 510 + 30) (res_start r) (res_end r)) ∧
    (create_reservation 100 capStore capPayload = .error .capacityExceeded ↔
      capCanteen.capacity ≤ (reservations_in_slot capStore "c2" 101
        (101 * 1440 + 510) (101 * 1440 + 510 + 30) : Int)) ∧
    ((∃ out, create_reservation 100 capStore capPayload = Except.ok out) ↔
      ((reservations_in_slot capStore "c2" 101 (101 * 1440 + 510)
        (101 * 1440 + 510 + 30) : Int) < capCanteen.capacity)) :=
  create_reservation_capacity_iff 100 capStore capPayload sampleStudent capCanteen
    "breakfast" (by decide) (Or.inl rfl) (Or.inr rfl) rfl rfl rfl rfl
    (by decide) (by decide) rfl

/-! ### C4 -/

/-- For a non-empty meal label, the count of `_check_meal_type_limit` counts
exactly the student's Active reservations on the date whose own-canteen
classification equals the label. -/
theorem meal_type_count_characterization (s : Store) (sid : String) (d : Nat)
    (mt : String) (hmt : mt ≠ "") :
    meal_type_count s sid d mt =
      s.reservations.countP fun r =>
        r.studentId == sid && r.status == "Active" && r.date == d &&
        (match get_canteen_by_id s r.canteenId with
         | some c => get_meal_type r.time c.workingHours == some mt
         | none => false) := by
  unfold meal_type_count get_reservations_by_student_id
  rw [List.countP_filter, List.countP_filter]
  apply List.countP_congr
  intro r _
  rcases hc : get_canteen_by_id s r.canteenId with _ | c
  · simp [hc]
  · rcases hm : get_meal_type r.time c.workingHours with _ | m
    · simp [hc, hm]
    · by_cases he : (m == mt) = true
      · have hmeq : m = mt := beq_iff_eq.mp he
        subst hmeq
        have hn : (m == "") = false := beq_eq_false_iff_ne.mpr hmt
        simp only [hc, hm, he, hn, Bool.not_false, Bool.true_and, Bool.and_true,
          Bool.and_eq_true, beq_iff_eq, beq_self_eq_true]
        tauto
      · have hne : m ≠ mt := beq_eq_false_iff_ne.mp (by simpa using he)
        have he' : (m == mt) = false := by simpa using he
        simp only [hc, hm, he', Bool.and_false, Bool.false_eq_true, false_and,
          and_false, false_iff, Bool.and_eq_true, beq_iff_eq, Option.some.injEq]
        tauto

/-- C4: after the requested slot classifies to meal `mt`, the request is
rejected with `QuotaExceeded` iff the student already holds at least 2 Active
reservations on the date whose own-canteen classification equals `mt`. -/
theorem create_reservation_quota_iff (today : Nat) (s : Store)
    (p : CreateReservationDTO) (st : Student) (canteen : Canteen) (mt : String)
    (h1 : ¬ p.date < today) (h2 : p.duration = 30 ∨ p.duration = 60)
    (h3 : p.time % 60 = 0 ∨ p.time % 60 = 30)
    (hst : get_student_by_id s p.studentId = some st)
    (hcan : get_canteen_by_id s p.canteenId = some canteen)
    (h6 : check_student_overlap s p.studentId (p.date * 1440 + p.time)
      (p.date * 1440 + p.time + p.duration) = false)
    (h7 : get_meal_type p.time canteen.workingHours = some mt)
    (h8 : mt ≠ "") :
    (create_reservation today s p = .error .quotaExceeded ↔
      2 ≤ s.reservations.countP fun r =>
        r.studentId == p.studentId && r.status == "Active" && r.date == p.date &&
        (match get_canteen_by_id s r.canteenId with
         | some c => get_meal_type r.time c.workingHours == some mt
         | none => false)) := by
  rw [create_reservation_after_validation today s p st canteen h1 h2 h3 hst hcan,
    if_neg (by simp [h6]), h7]
  simp only []
  rw [if_neg h8, ← meal_type_count_characterization s p.studentId p.date mt h8]
  by_cases hq : 2 ≤ meal_type_count s p.studentId p.date mt
  · rw [if_pos hq]
    exact iff_of_true rfl hq
  · rw [if_neg hq]
    apply iff_of_false
    · intro hcontra
      repeat' split at hcontra
      all_goals exact absurd hcontra (by simp)
    · exact hq

def quotaRes1 : Reservation :=
  { id := "q1", studentId := "s1", canteenId := "c1", date := 101, time := 480,
    duration := 30, status := "Active" }

def quotaRes2 : Reservation :=
  { id := "q2", studentId := "s1", canteenId := "c1", date := 101, time := 510,
    duration := 30, status := "Active" }

def quotaStore : Store :=
  { students := [sampleStudent], canteens := [sampleCanteen],
    reservations := [quotaRes1, quotaRes2], restrictions := [], nextId := 3 }

def quotaPayload : CreateReservationDTO :=
  { studentId := "s1", canteenId := "c1", date := 101, time := 540, duration := 30 }

/-- Witness for C4: a third breakfast reservation on the same date is
rejected with `QuotaExceeded`. -/
theorem create_reservation_quota_iff_witness :
    (create_reservation 100 quotaStore quotaPayload = .error .quotaExceeded ↔
      2 ≤ quotaStore.reservations.countP fun r =>
        r.studentId == "s1" && r.status == "Active" && r.date == 101 &&
        (match get_canteen_by_id quotaStore r.canteenId with
         | some c => get_meal_type r.time c.workingHours == some "breakfast"
         | none => false)) :=
  create_reservation_quota_iff 100 quotaStore quotaPayload sampleStudent sampleCanteen
    "breakfast" (by decide) (Or.inl rfl) (Or.inl rfl) rfl rfl rfl rfl (by decide)

/-! ### C2 -/

/-- C2: the effective working hours for the requested date are the hour list
of the (first) restriction whose inclusive date range covers the date when
one exists for the canteen, and the canteen's nominal hours otherwise; a
request that passed every earlier check is rejected with `Closed` iff its
slot is not fully contained in any effective window. -/
theorem create_reservation_closed_iff (today : Nat) (s : Store)
    (p : CreateReservationDTO) (st : Student) (canteen : Canteen) (mt : String)
    (h1 : ¬ p.date < today) (h2 : p.duration = 30 ∨ p.duration = 60)
    (h3 : p.time % 60 = 0 ∨ p.time % 60 = 30)
    (hst : get_student_by_id s p.studentId = some st)
    (hcan : get_canteen_by_id s p.canteenId = some canteen)
    (h6 : check_student_overlap s p.studentId (p.date * 1440 + p.time)
      (p.date * 1440 + p.time + p.duration) = false)
    (h7 : get_meal_type p.time canteen.workingHours = some mt)
    (h8 : mt ≠ "")
    (h9 : meal_type_count s p.studentId p.date mt < 2) :
    (∀ rtr, find_active_restriction s canteen.id p.date = some rtr →
      rtr ∈ s.restrictions ∧ rtr.canteenId = canteen.id ∧
      rtr.startDate ≤ p.date ∧ p.date ≤ rtr.endDate ∧
      effective_working_hours s canteen p.date = rtr.workingHours) ∧
    (find_active_restriction s canteen.id p.date = none →
      (∀ rtr ∈ s.restrictions, rtr.canteenId = canteen.id →
        ¬ (rtr.startDate ≤ p.date ∧ p.date ≤ rtr.endDate)) ∧
      effective_working_hours s canteen p.date = canteen.workingHours) ∧
    (create_reservation today s p = .error .closed ↔
      ¬ ∃ w ∈ effective_working_hours s canteen p.date,
        p.date * 1440 + w.from_time ≤ p.date * 1440 + p.time ∧
        p.date * 1440 + p.time + p.duration ≤ p.date * 1440 + w.to_time) := by
  refine ⟨?_, ?_, ?_⟩
  · intro rtr hfound
    have hmem : rtr ∈ get_restrictions_by_canteen_id s canteen.id :=
      List.mem_of_find?_eq_some hfound
    rw [get_restrictions_by_canteen_id, List.mem_filter] at hmem
    have hpred := List.find?_some hfound
    simp only [Bool.and_eq_true, decide_eq_true_eq] at hpred
    refine ⟨hmem.1, by simpa using hmem.2, hpred.1, hpred.2, ?_⟩
    unfold effective_working_hours
    rw [hfound]
  · intro hnone
    constructor
    · intro rtr hmem hcid
      intro hcover
      have hfalse := List.find?_eq_none.mp hnone rtr
        (by rw [get_restrictions_by_canteen_id, List.mem_filter]
            exact ⟨hmem, by simp [hcid]⟩)
      simp only [Bool.and_eq_true, decide_eq_true_eq] at hfalse
      exact hfalse ⟨hcover.1, hcover.2⟩
    · unfold effective_working_hours
      rw [hnone]
  · have hopen : is_open s canteen p.date p.time p.duration = true ↔
        ∃ w ∈ effective_working_hours s canteen p.date,
          p.date * 1440 + w.from_time ≤ p.date * 1440 + p.time ∧
          p.date * 1440 + p.time + p.duration ≤ p.date * 1440 + w.to_time := by
      simp only [is_open, withinB, List.any_eq_true, Bool.and_eq_true, decide_eq_true_eq]
    rw [create_reservation_after_validation today s p st canteen h1 h2 h3 hst hcan,
      if_neg (by simp [h6]), h7]
    simp only []
    rw [if_neg h8, if_neg (not_le.mpr h9)]
    by_cases ho : is_open s canteen p.date p.time p.duration = true
    · rw [if_neg (not_not_intro ho)]
      apply iff_of_false
      · intro hcontra
        repeat' split at hcontra
        all_goals exact absurd hcontra (by simp)
      · exact fun hno => hno (hopen.mp ho)
    · rw [if_pos ho]
      exact iff_of_true rfl (fun hex => ho (hopen.mpr hex))

def restrictedHour : WorkingHour :=
  { meal := "breakfast", from_time := 480, to_time := 540 }

def closedRestriction : Restriction :=
  { id := "x1", canteenId := "c1", startDate := 101, endDate := 101,
    workingHours := [restrictedHour] }

def closedStore : Store :=
  { students := [sampleStudent], canteens := [sampleCanteen],
    reservations := [], restrictions := [closedRestriction], nextId := 0 }

def closedPayload : CreateReservationDTO :=
  { studentId := "s1", canteenId := "c1", date := 101, time := 540, duration := 30 }

/-- Witness for C2: a restriction shortening breakfast to 08:00-09:00 covers
the requested date, and a slot 09:00-09:30 (inside nominal hours but outside
the restricted window) is rejected with `Closed`. -/
theorem create_reservation_closed_iff_witness :
    (∀ rtr, find_active_restriction closedStore "c1" 101 = some rtr →
      rtr ∈ closedStore.restrictions ∧ rtr.canteenId = "c1" ∧
      rtr.startDate ≤ 101 ∧ 101 ≤ rtr.endDate ∧
      effective_working_hours closedStore sampleCanteen 101 = rtr.workingHours) ∧
    (find_active_restriction closedStore "c1" 101 = none →
      (∀ rtr ∈ closedStore.restrictions, rtr.canteenId = "c1" →
        ¬ (rtr.startDate ≤ 101 ∧ 101 ≤ rtr.endDate)) ∧
      effective_working_hours closedStore sampleCanteen 101 = sampleCanteen.workingHours) ∧
    (create_reservation 100 closedStore closedPayload = .error .closed ↔
      ¬ ∃ w ∈ effective_working_hours closedStore sampleCanteen 101,
        101 * 1440 + w.from_time ≤ 101 * 1440 + 540 ∧
        101 * 1440 + 540 + 30 ≤ 101 * 1440 + w.to_time) :=
  create_reservation_closed_iff 100 closedStore closedPayload sampleStudent sampleCanteen
    "breakfast" (by decide) (Or.inl rfl) (Or.inl rfl) rfl rfl rfl rfl (by decide) (by decide)

/-! ### C9 -/

/-- A cascade target: an Active reservation of the restricted canteen whose
date lies in the restriction's inclusive range and whose slot is not fully
contained in any of the restriction's windows. -/
def cascade_hits (canteenId : String) (dto : CreateRestrictionDTO) (r : Reservation) : Prop :=
  r.status = "Active" ∧ r.canteenId = canteenId ∧
  dto.startDate ≤ r.date ∧ r.date ≤ dto.endDate ∧
  ¬ ∃ w ∈ dto.workingHours,
      r.date * 1440 + w.from_time ≤ res_start r ∧ res_end r ≤ r.date * 1440 + w.to_time

instance (canteenId : String) (dto : CreateRestrictionDTO) (r : Reservation) :
    Decidable (cascade_hits canteenId dto r) := by
  unfold cascade_hits
  infer_instance

/-- The cascade's boolean test holds exactly on cascade targets. -/
theorem cascade_cond_iff (cid : String) (dto : CreateRestrictionDTO) (r : Reservation) :
    (r.canteenId == cid && r.status == "Active" && decide (dto.startDate ≤ r.date) &&
      decide (r.date ≤ dto.endDate) && ! slot_admissible r dto.workingHours) = true ↔
    cascade_hits cid dto r := by
  unfold cascade_hits slot_admissible withinB
  simp only [Bool.and_eq_true, beq_iff_eq, decide_eq_true_eq, Bool.not_eq_true',
    List.any_eq_false, not_exists, not_and]
  tauto

/-- C9: a successfully created restriction cancels exactly the Active
reservations of its canteen whose date lies in the inclusive range
`[startDate, endDate]` and whose slot is not fully contained in any of the
restriction's windows; all other reservation records are unchanged. -/
theorem create_restriction_cascade_exact (s : Store) (actorId canteenId : String)
    (dto : CreateRestrictionDTO) (s' : Store) (restr : Restriction)
    (h : create_restriction s actorId canteenId dto = .ok (s', restr)) :
    restr.canteenId = canteenId ∧ restr.startDate = dto.startDate ∧
    restr.endDate = dto.endDate ∧ restr.workingHours = dto.workingHours ∧
    s'.reservations.length = s.reservations.length ∧
    ∀ i (hi : i < s.reservations.length),
      (cascade_hits canteenId dto (s.reservations[i]) →
        s'.reservations[i]? = some { s.reservations[i] with status := "Cancelled" }) ∧
      (¬ cascade_hits canteenId dto (s.reservations[i]) →
        s'.reservations[i]? = some (s.reservations[i])) := by
  obtain ⟨hrestr, hs⟩ := create_restriction_ok_shape s actorId canteenId dto s' restr h
  have hres : s'.reservations = s.reservations.map fun r =>
      if r.canteenId == canteenId && r.status == "Active" &&
          decide (dto.startDate ≤ r.date) && decide (r.date ≤ dto.endDate) &&
          ! slot_admissible r dto.workingHours
      then { r with status := "Cancelled" } else r := by
    rw [hs]
  refine ⟨by rw [hrestr], by rw [hrestr], by rw [hrestr], by rw [hrestr],
    by rw [hres]; simp, ?_⟩
  intro i hi
  have hmap : s'.reservations[i]? =
      some (if (s.reservations[i]).canteenId == canteenId &&
          (s.reservations[i]).status == "Active" &&
          decide (dto.startDate ≤ (s.reservations[i]).date) &&
          decide ((s.reservations[i]).date ≤ dto.endDate) &&
          ! slot_admissible (s.reservations[i]) dto.workingHours
        then { s.reservations[i] with status := "Cancelled" }
        else s.reservations[i]) := by
    rw [hres, List.getElem?_map, List.getElem?_eq_getElem hi]
    rfl
  constructor
  · intro hhit
    rw [hmap, if_pos ((cascade_cond_iff canteenId dto (s.reservations[i])).mpr hhit)]
  · intro hmiss
    rw [hmap, if_neg (fun hc =>
      hmiss ((cascade_cond_iff canteenId dto (s.reservations[i])).mp hc))]

def boundaryRes1 : Reservation :=
  { id := "b1", studentId := "s1", canteenId := "c1", date := 101, time := 510,
    duration := 30, status := "Active" }

def boundaryRes2 : Reservation :=
  { id := "b2", studentId := "s1", canteenId := "c1", date := 101, time := 510,
    duration := 60, status := "Active" }

def boundaryRes3 : Reservation :=
  { id := "b3", studentId := "s1", canteenId := "c1", date := 101, time := 540,
    duration := 30, status := "Active" }

def boundaryRes4 : Reservation :=
  { id := "b4", studentId := "s1", canteenId := "c1", date := 102, time := 510,
    duration := 30, status := "Active" }

def boundaryStore : Store :=
  { students := [sampleAdmin, sampleStudent], canteens := [sampleCanteen],
    reservations := [boundaryRes1, boundaryRes2, boundaryRes3, boundaryRes4],
    restrictions := [], nextId := 0 }

def boundaryDto : CreateRestrictionDTO :=
  { startDate := 101, endDate := 101, workingHours := [restrictedHour] }

def boundaryRestr : Restriction :=
  { id := "restr-0", canteenId := "c1", startDate := 101, endDate := 101,
    workingHours := [restrictedHour] }

def boundaryStoreAfter : Store :=
  { boundaryStore with
    restrictions := [boundaryRestr]
    reservations := [boundaryRes1, { boundaryRes2 with status := "Cancelled" },
                     { boundaryRes3 with status := "Cancelled" }, boundaryRes4]
    nextId := 1 }

/-- Witness for C9, the spec's boundary scenario: nominal breakfast
08:00-10:00 shortened to 08:00-09:00; 08:30-09:00 stays Active, 08:30-09:30
and 09:00-09:30 are cancelled, and a reservation on the next day is
untouched. -/
theorem create_restriction_cascade_exact_witness :
    boundaryStoreAfter.reservations[0]? = some boundaryRes1 ∧
    boundaryStoreAfter.reservations[1]? = some { boundaryRes2 with status := "Cancelled" } ∧
    boundaryStoreAfter.reservations[2]? = some { boundaryRes3 with status := "Cancelled" } ∧
    boundaryStoreAfter.reservations[3]? = some boundaryRes4 := by
  have h := create_restriction_cascade_exact boundaryStore "adm" "c1" boundaryDto
    boundaryStoreAfter boundaryRestr rfl
  refine ⟨?_, ?_, ?_, ?_⟩
  · exact (h.2.2.2.2.2 0 (by decide)).2 (by decide)
  · exact (h.2.2.2.2.2 1 (by decide)).1 (by decide)
  · exact (h.2.2.2.2.2 2 (by decide)).1 (by decide)
  · exact (h.2.2.2.2.2 3 (by decide)).2 (by decide)

end Menza
